import Mathlib

/-!
Verification of the func-go function runtime's capability-detection,
configuration and lifecycle core against its specification.

The Go sources are shallowly embedded: Go maps of strings become
association lists whose insertion overwrites an existing key in place,
the process environment becomes an association list of (name, value)
pairs, straight-line lifecycle code becomes explicit event traces, and
fallible code returns Except or Option.  Each definition names the
source function it embeds.
-/

namespace FuncGo

/-- A Go map of type string to string, as an association list.  Assignment
overwrites the binding of an existing key in place, otherwise appends. -/
abbrev Cfg := List (String × String)

/-- Lookup in a Go string map; none models a missing key. -/
def cfgGet : Cfg → String → Option String
  | [], _ => none
  | (k, v) :: rest, key => if k = key then some v else cfgGet rest key

/-- Assignment in a Go string map. -/
def cfgSet : Cfg → String → String → Cfg
  | [], key, val => [(key, val)]
  | (k, v) :: rest, key, val =>
      if k = key then (k, val) :: rest else (k, v) :: cfgSet rest key val

/-- The process environment: variable names paired with their values.
Variable names never contain the character that separates a name from its
value in the textual form os.Environ returns. -/
abbrev Env := List (String × String)

/-- os.Environ: each variable rendered as one name=value string. -/
def osEnviron (env : Env) : List String :=
  env.map fun p => p.1 ++ "=" ++ p.2

/-- os.Getenv: the value of a variable, or the empty string when unset. -/
def osGetenv (env : Env) (name : String) : String :=
  match cfgGet env name with
  | some v => v
  | none => ""

/-- Split a character list at its first occurrence of the separator; none
when the separator does not occur. -/
def splitEqAux : List Char → Option (List Char × List Char)
  | [] => none
  | c :: cs =>
      if c = '=' then some ([], cs)
      else
        match splitEqAux cs with
        | none => none
        | some (a, b) => some (c :: a, b)

/-- strings.SplitN with separator "=" and n = 2: one part when the string
has no separator, otherwise the part before the first separator and the
remainder. -/
def splitN2 (s : String) : List String :=
  match splitEqAux s.data with
  | none => [s]
  | some (a, b) => [String.mk a, String.mk b]

/-- Whether a line contains the key-value separator at all. -/
def lineHasEq (line : String) : Bool :=
  line.data.contains '='

/-- allEnvs of cloudevents/service.go (lines 225 to 231): iterates the
name=value strings of os.Environ and assigns envs of e the value
os.Getenv of e, where e is the whole name=value string. -/
def allEnvs (env : Env) : Cfg :=
  (osEnviron env).foldl (fun m e => cfgSet m e (osGetenv env e)) []

/-- allEnvs of http/service.go (lines 220 to 227): splits each os.Environ
entry at its first separator and assigns the value under the name.  An
environment entry always contains the separator, so the split always
yields both parts. -/
def httpAllEnvs (env : Env) : Cfg :=
  (osEnviron env).foldl
    (fun m e =>
      let pair := splitN2 e
      cfgSet m (pair.headD "") (pair.getD 1 "")) []

/-- Whitespace as trimmed by strings.TrimSpace, restricted to the ASCII
whitespace characters. -/
def goIsSpace (c : Char) : Bool :=
  c = ' ' || c = '\t' || c = '\n' || c = '\r'

/-- Trim characters satisfying p from both ends of a string. -/
def goTrim (p : Char → Bool) (s : String) : String :=
  String.mk (((s.data.dropWhile p).reverse.dropWhile p).reverse)

/-- strings.TrimSpace on a line of the static config file. -/
def trimSpace (s : String) : String := goTrim goIsSpace s

/-- strings.Trim with a cutset of one double-quote character. -/
def trimQuotes (s : String) : String := goTrim (fun c => c = '"') s

/-- The loop of readCfg (kafka/service.go lines 362 to 384, identically
cloudevents/instance.go lines 460 to 482): each scanned line is split at
its first separator; a line that does not yield two parts fails the whole
read with an error naming the 1-based line number and the line, and a
well-formed line stores the space-trimmed key and the space-then-quote
trimmed value.  The counter i is the number of lines already scanned. -/
def readCfgLines : List String → Nat → Cfg → Except String Cfg
  | [], _, acc => .ok acc
  | line :: rest, i, acc =>
      match splitN2 line with
      | [k, v] =>
          readCfgLines rest (i + 1) (cfgSet acc (trimSpace k) (trimQuotes (trimSpace v)))
      | _ => .error ("config line " ++ toString (i + 1) ++ " invalid: " ++ line)

/-- readCfg: a missing static file yields the empty map without error;
otherwise the file's lines are parsed by readCfgLines. -/
def readCfg : Option (List String) → Except String Cfg
  | none => .ok []
  | some lines => readCfgLines lines 0 []

/-- newCfg (kafka/service.go lines 388 to 398, identically
cloudevents/instance.go lines 486 to 496): reads the static file, then
overlays every process environment variable, assignment overwriting any
same-key static entry. -/
def newCfg (file : Option (List String)) (env : Env) : Except String Cfg :=
  match readCfg file with
  | .error e => .error e
  | .ok cfg =>
      .ok ((osEnviron env).foldl
        (fun m e =>
          let pair := splitN2 e
          cfgSet m (pair.headD "") (pair.getD 1 "")) cfg)

/-- Whether an Except resolved without error. -/
def exceptOk : Except String Cfg → Bool
  | .ok _ => true
  | .error _ => false

/-- DefaultListenAddress of cloudevents/instance.go. -/
def DefaultListenAddress : String := "127.0.0.1:8080"

/-- listenAddress of http/service.go (lines 55 to 65): the deprecated
ADDRESS and PORT variables with defaults 127.0.0.1 and 8080, joined by a
colon.  This variant consults no other variable. -/
def httpListenAddress (env : Env) : String :=
  (if osGetenv env "ADDRESS" = "" then "127.0.0.1" else osGetenv env "ADDRESS")
    ++ ":"
    ++ (if osGetenv env "PORT" = "" then "8080" else osGetenv env "PORT")

/-- listenAddress of cloudevents/instance.go (lines 311 to 336): a
non-empty LISTEN_ADDRESS is returned immediately; otherwise, when either
legacy variable is set, the missing half defaults and the pair is joined;
otherwise the default listen address. -/
def ceListenAddress (env : Env) : String :=
  if osGetenv env "LISTEN_ADDRESS" ≠ "" then osGetenv env "LISTEN_ADDRESS"
  else if osGetenv env "ADDRESS" ≠ "" ∨ osGetenv env "PORT" ≠ "" then
    (if osGetenv env "ADDRESS" ≠ "" then osGetenv env "ADDRESS" else "127.0.0.1")
      ++ ":"
      ++ (if osGetenv env "PORT" ≠ "" then osGetenv env "PORT" else "8080")
  else DefaultListenAddress

/-- The twelve CloudEvents handler method shapes enumerated as interfaces
in cloudevents/instance.go (lines 128 to 163), named after those
interface types: an optional leading context parameter, an optional event
parameter, and a return of nothing, error, event pointer, or event
pointer with error. -/
inductive Shape
  | handler
  | handlerErr
  | handlerCtx
  | handlerCtxErr
  | handlerEvt
  | handlerEvtErr
  | handlerCtxEvt
  | handlerCtxEvtErr
  | handlerEvtEvt
  | handlerEvtEvtErr
  | handlerCtxEvtEvt
  | handlerCtxEvtEvtErr
deriving DecidableEq, BEq

/-- A handler value abstracted by which shape interfaces its method set
satisfies.  In Go a concrete type has at most one method named Handle, so
at most one shape holds of a real handler; the embedding keeps the
predicate general so that the testing order itself is visible. -/
abbrev Impl := Shape → Bool

/-- The case order of the type switch in getReceiverFn
(cloudevents/instance.go lines 165 to 194). -/
def ceShapeOrder : List Shape :=
  [.handler, .handlerErr, .handlerCtx, .handlerCtxErr, .handlerEvt, .handlerEvtErr,
   .handlerCtxEvt, .handlerCtxEvtErr, .handlerEvtEvt, .handlerEvtEvtErr,
   .handlerCtxEvtEvt, .handlerCtxEvtEvtErr]

/-- The case order of the type switch in invokeCloudEventHandlerFn
(kafka/service.go lines 223 to 252). -/
def kafkaShapeOrder : List Shape :=
  [.handlerCtxEvtEvtErr, .handlerEvtEvtErr, .handlerCtxEvtErr, .handlerEvtErr,
   .handlerCtxEvt, .handlerEvt, .handlerCtxErr, .handlerCtx, .handlerErr, .handler]

/-- First shape of a list that the handler satisfies, none otherwise. -/
def firstMatch (impl : Impl) : List Shape → Option Shape
  | [] => none
  | s :: rest => if impl s then some s else firstMatch impl rest

/-- getReceiverFn (cloudevents/instance.go lines 165 to 194): the type
switch tests the shape interfaces case by case and returns the matching
case's bound Handle method, modelled by the shape it binds; the default
case panics, modelled by none. -/
def getReceiverFn (impl : Impl) : Option Shape :=
  if impl .handler then some .handler
  else if impl .handlerErr then some .handlerErr
  else if impl .handlerCtx then some .handlerCtx
  else if impl .handlerCtxErr then some .handlerCtxErr
  else if impl .handlerEvt then some .handlerEvt
  else if impl .handlerEvtErr then some .handlerEvtErr
  else if impl .handlerCtxEvt then some .handlerCtxEvt
  else if impl .handlerCtxEvtErr then some .handlerCtxEvtErr
  else if impl .handlerEvtEvt then some .handlerEvtEvt
  else if impl .handlerEvtEvtErr then some .handlerEvtEvtErr
  else if impl .handlerCtxEvtEvt then some .handlerCtxEvtEvt
  else if impl .handlerCtxEvtEvtErr then some .handlerCtxEvtEvtErr
  else none

/-- invokeCloudEventHandlerFn (kafka/service.go lines 190 to 253): the
type switch dispatches to the matching case's Handle call, modelled by
the shape it dispatches to; the default case returns the unsupported
signature error. -/
def invokeCloudEventHandlerFn (impl : Impl) : Except String Shape :=
  if impl .handlerCtxEvtEvtErr then .ok .handlerCtxEvtEvtErr
  else if impl .handlerEvtEvtErr then .ok .handlerEvtEvtErr
  else if impl .handlerCtxEvtErr then .ok .handlerCtxEvtErr
  else if impl .handlerEvtErr then .ok .handlerEvtErr
  else if impl .handlerCtxEvt then .ok .handlerCtxEvt
  else if impl .handlerEvt then .ok .handlerEvt
  else if impl .handlerCtxErr then .ok .handlerCtxErr
  else if impl .handlerCtx then .ok .handlerCtx
  else if impl .handlerErr then .ok .handlerErr
  else if impl .handler then .ok .handler
  else .error "unsupported CloudEvent handler signature"

/-- First-match dispatch over a shape list with the kafka switch's default
error, for relating invokeCloudEventHandlerFn to its testing order. -/
def firstMatchExcept (impl : Impl) : List Shape → Except String Shape
  | [] => .error "unsupported CloudEvent handler signature"
  | s :: rest => if impl s then .ok s else firstMatchExcept impl rest

/-- What newCloudeventHandler (cloudevents/instance.go lines 354 to 375)
binds as the canonical handler: the DefaultHandler wrapper's named field
directly, or the method resolved by getReceiverFn. -/
inductive ResolvedHandler
  | direct
  | shape (s : Shape)
deriving DecidableEq

/-- newCloudeventHandler (cloudevents/instance.go lines 354 to 375): a
DefaultHandler bypasses matching entirely; any other value goes through
getReceiverFn, whose panic on no match aborts construction (none). -/
def newCloudeventHandler (isDefault : Bool) (impl : Impl) : Option ResolvedHandler :=
  if isDefault then some ResolvedHandler.direct
  else (getReceiverFn impl).map ResolvedHandler.shape

/-- The outcome of Service.Handle in http/service.go (lines 120 to 128):
a request is either dispatched to the handler's Handle method, or, when
the value does not implement the Handler interface, answered by the
fallback that logs and writes an explanatory message. -/
inductive HTTPDispatch
  | handled
  | fallback (body : String)
deriving DecidableEq

/-- Service.Handle (http/service.go lines 120 to 128). -/
def httpServiceHandle (implementsHandler : Bool) : HTTPDispatch :=
  if implementsHandler then .handled
  else .fallback "function does not implement Handle. Skipping"

/-- What New of http/service.go (lines 68 to 86) builds: the handler value
is stored uninspected and three routes are registered.  Construction has
no failure path. -/
structure HTTPServiceModel where
  implementsHandler : Bool
  routes : List String
deriving DecidableEq

/-- New (http/service.go lines 68 to 86). -/
def httpNew (implementsHandler : Bool) : HTTPServiceModel :=
  { implementsHandler := implementsHandler,
    routes := ["/health/readiness", "/health/liveness", "/"] }

/-- The loop of collapseErrors (http/service.go lines 255 to 266,
identically kafka/service.go lines 423 to 434): the first non-nil error
is kept as the result, every later non-nil error is appended to the log. -/
def collapseErrorsLoop : Option String → List String → List (Option String) →
    Option String × List String
  | err, logged, [] => (err, logged)
  | err, logged, e :: rest =>
      match e with
      | none => collapseErrorsLoop err logged rest
      | some msg =>
          match err with
          | none => collapseErrorsLoop (some msg) logged rest
          | some m => collapseErrorsLoop (some m) (logged ++ [msg]) rest

/-- collapseErrors: the returned error and the list of messages logged. -/
def collapseErrors (ee : List (Option String)) : Option String × List String :=
  collapseErrorsLoop none [] ee

/-- The inputs shutdown works from: the message that triggered it, whether
the handler implements Stopper, what the Stop hook would return, and what
the transport's graceful close returns. -/
structure ShutdownIn where
  sourceErr : Option String
  implStop : Bool
  stopErr : Option String
  closeErr : Option String
deriving DecidableEq

/-- Observable shutdown events. -/
inductive StopEv
  | closeBegun
  | stopHookInvoked
deriving DecidableEq, BEq

/-- shutdown (http/service.go lines 234 to 251; kafka/service.go lines
402 to 419 with the reader close in place of the server close): first the
transport's graceful close, then the Stop hook only when the handler
implements Stopper, then the errors collapsed in the order source error,
instance stop error, transport close error.  Returns the event trace with
the collapse result. -/
def shutdownRun (x : ShutdownIn) : List StopEv × (Option String × List String) :=
  let instanceErr := if x.implStop then x.stopErr else none
  ([StopEv.closeBegun] ++ (if x.implStop then [StopEv.stopHookInvoked] else []),
   collapseErrors [x.sourceErr, instanceErr, x.closeErr])

/-- Observable events of the start path, as seen from the task that runs
Start itself. -/
inductive StartEv
  | hookSpawned
  | hookInvoked
  | hookReturned
  | signalsInstalled
  | transportBound
  | serving
deriving DecidableEq, BEq

/-- The main-task event order of Start in http/service.go (lines 91 to
117): startInstance (lines 174 to 184) spawns the Starter hook in its own
task when implemented and returns at once, then signal handling is
installed, then the listener is bound and served.  The hook's return is
never awaited by this task. -/
def httpStartTrace (implStart : Bool) : List StartEv :=
  (if implStart then [StartEv.hookSpawned] else [])
    ++ [StartEv.signalsInstalled, StartEv.transportBound, StartEv.serving]

/-- The spawned task of startInstance (http/service.go lines 176 to 180):
it sends the hook's return value on the stop channel exactly when that
value is a non-nil error. -/
def startHookSends (hookErr : Option String) : List String :=
  match hookErr with
  | some e => [e]
  | none => []

/-- What Start of http/service.go returns once the race on the stop
channel resolves with the given winner: the result of shutdown with the
winner as the triggering error. -/
def httpStartReturn (winner : Option String) (implStop : Bool)
    (stopErr closeErr : Option String) : Option String :=
  (shutdownRun { sourceErr := winner, implStop := implStop,
                 stopErr := stopErr, closeErr := closeErr }).2.1

/-- Start of cloudevents/instance.go (lines 265 to 309) with its
startInstance (lines 421 to 436): the listener is bound first, then, for
a Starter, the config is built and its error returned synchronously while
the hook itself is spawned in its own task; then signals are installed
and serving begins.  Second component: the error Start returns before
ever serving, none when it proceeds to the wait. -/
def ceInstStart (implStart : Bool) (cfgResult : Except String Cfg) :
    List StartEv × Option String :=
  match implStart, cfgResult with
  | true, .error e => ([StartEv.transportBound], some e)
  | true, .ok _ =>
      ([StartEv.transportBound, StartEv.hookSpawned, StartEv.signalsInstalled,
        StartEv.serving], none)
  | false, _ =>
      ([StartEv.transportBound, StartEv.signalsInstalled, StartEv.serving], none)

/-- Start of cloudevents/service.go (lines 65 to 74): for a Starter the
hook is invoked synchronously in the calling task and a non-nil return
aborts Start before any serving; only after the hook returns nil does the
server start and the signal handler install.  doneVal is the value later
received on the done channel.  Second component: what Start returns. -/
def ceServiceStart (implStart : Bool) (hookErr : Option String)
    (doneVal : Option String) : List StartEv × Option String :=
  if implStart then
    match hookErr with
    | some e => ([StartEv.hookInvoked, StartEv.hookReturned], some e)
    | none =>
        ([StartEv.hookInvoked, StartEv.hookReturned, StartEv.serving,
          StartEv.signalsInstalled], doneVal)
  else ([StartEv.serving, StartEv.signalsInstalled], doneVal)

/-- An HTTP response as a probe handler writes it: the status code (200
when the handler only writes a body) and the body text. -/
structure ProbeResponse where
  status : Nat
  body : String
deriving DecidableEq

/-- What a probe sees of the handler value: the corresponding reporter
interface is absent, or its hook returns a boolean and an error. -/
inductive HookRes
  | noImpl
  | res (ok : Bool) (err : Option String)
deriving DecidableEq

/-- Service.Ready of http/service.go (lines 131 to 150): without a
ReadinessReporter the probe writes READY; with one, a hook error writes
500 with the message and the error text, a false report writes 503 with
the not-yet-available message, and a true report writes READY. -/
def serviceReady : HookRes → ProbeResponse
  | .noImpl => ⟨200, "READY"⟩
  | .res _ (some e) => ⟨500, "error checking readiness. " ++ e⟩
  | .res false none => ⟨503, "function not yet available"⟩
  | .res true none => ⟨200, "READY"⟩

/-- Service.Alive of http/service.go (lines 153 to 172). -/
def serviceAlive : HookRes → ProbeResponse
  | .noImpl => ⟨200, "ALIVE"⟩
  | .res _ (some e) => ⟨500, "error checking liveness. " ++ e⟩
  | .res false none => ⟨503, "function not ready"⟩
  | .res true none => ⟨200, "ALIVE"⟩

/-- Service.Ready of cloudevents/instance.go (lines 378 to 397): as the
http variant, except that the false branch writes its message through
Fprintln and so the body carries a trailing newline. -/
def ceServiceReady : HookRes → ProbeResponse
  | .noImpl => ⟨200, "READY"⟩
  | .res _ (some e) => ⟨500, "error checking readiness. " ++ e⟩
  | .res false none => ⟨503, "function not yet available\n"⟩
  | .res true none => ⟨200, "READY"⟩

/-- Service.Alive of cloudevents/instance.go (lines 400 to 419). -/
def ceServiceAlive : HookRes → ProbeResponse
  | .noImpl => ⟨200, "ALIVE"⟩
  | .res _ (some e) => ⟨500, "error checking liveness. " ++ e⟩
  | .res false none => ⟨503, "function not ready"⟩
  | .res true none => ⟨200, "ALIVE"⟩

/-- Whether pat occurs as a contiguous run inside s. -/
def hasSubAux (pat : List Char) : List Char → Bool
  | [] => pat.isEmpty
  | c :: cs => pat.isPrefixOf (c :: cs) || hasSubAux pat cs

/-- Substring occurrence on strings. -/
def hasSub (s pat : String) : Bool := hasSubAux pat.data s.data

/-- Running one http handler body to completion: either it writes a
response, or it panics with a value. -/
inductive HandlerOutcome
  | ok (resp : ProbeResponse)
  | panicked (msg : String)
deriving DecidableEq

/-- recoverMiddleware (src/unnamed/part_000 lines 27 to 42): a panic in
the wrapped handler is recovered, logged with its stack, and answered
with status 500 and no body; a normal completion passes through. -/
def recoverMiddleware (inner : HandlerOutcome) : ProbeResponse :=
  match inner with
  | .ok r => r
  | .panicked _ => ⟨500, ""⟩

/-- A probe hook run: the reporter is absent, returns normally, or
panics. -/
inductive HookRun
  | absent
  | returns (ok : Bool) (err : Option String)
  | panics (msg : String)
deriving DecidableEq

/-- The readiness handler body as one HandlerOutcome: a panicking hook
panics the handler, anything else completes with Service.Ready's
response. -/
def readyOutcome : HookRun → HandlerOutcome
  | .absent => .ok (serviceReady .noImpl)
  | .returns b e => .ok (serviceReady (.res b e))
  | .panics m => .panicked m

/-- The liveness handler body as one HandlerOutcome. -/
def aliveOutcome : HookRun → HandlerOutcome
  | .absent => .ok (serviceAlive .noImpl)
  | .returns b e => .ok (serviceAlive (.res b e))
  | .panics m => .panicked m

/-- Modelled from the spec: the readiness probe endpoint served behind
recoverMiddleware, whose application to the probe mux is not among the
source files (only the middleware itself is, in src/unnamed/part_000);
the spec states a probe-hook panic is caught at the probe boundary. -/
def probeReady (h : HookRun) : ProbeResponse :=
  recoverMiddleware (readyOutcome h)

/-- Modelled from the spec: the liveness probe endpoint served behind
recoverMiddleware, as probeReady. -/
def probeAlive (h : HookRun) : ProbeResponse :=
  recoverMiddleware (aliveOutcome h)

/-! General lemmas about the embedded definitions. -/

/-- splitEqAux finds a split exactly when the separator occurs. -/
theorem splitEqAux_isSome (cs : List Char) : (splitEqAux cs).isSome = cs.contains '=' := by
  induction cs with
  | nil => rfl
  | cons c cs ih =>
      by_cases h : c = '='
      · simp [splitEqAux, List.contains_cons, h]
      · have hbeq : ('=' == c) = false := beq_eq_false_iff_ne.mpr (Ne.symm h)
        simp only [splitEqAux, List.contains_cons, if_neg h, hbeq, Bool.false_or, ← ih]
        cases hs : splitEqAux cs
        · simp
        · rename_i p
          cases p
          simp

/-- A line without the separator survives SplitN whole. -/
theorem splitN2_of_noEq (l : String) (h : lineHasEq l = false) : splitN2 l = [l] := by
  have hs : (splitEqAux l.data).isSome = false := by rw [splitEqAux_isSome]; exact h
  cases he : splitEqAux l.data
  · simp [splitN2, he]
  · rw [he] at hs; simp at hs

/-- A line with the separator splits into exactly two parts. -/
theorem splitN2_of_hasEq (l : String) (h : lineHasEq l = true) :
    ∃ a b, splitEqAux l.data = some (a, b) ∧ splitN2 l = [String.mk a, String.mk b] := by
  have hs : (splitEqAux l.data).isSome = true := by rw [splitEqAux_isSome]; exact h
  cases he : splitEqAux l.data
  · rw [he] at hs; simp at hs
  · rename_i p
    exact ⟨p.1, p.2, by simp [he], by simp [splitN2, he]⟩

/-- Splitting at the first separator after a separator-free key yields the
key and the remainder. -/
theorem splitEqAux_append (kc vc : List Char) (h : kc.contains '=' = false) :
    splitEqAux (kc ++ '=' :: vc) = some (kc, vc) := by
  induction kc with
  | nil => simp [splitEqAux]
  | cons c cs ih =>
      simp only [List.contains_cons, Bool.or_eq_false_iff] at h
      have hc : ¬ c = '=' := fun he => by simp [he] at h
      simp [splitEqAux, if_neg hc, ih h.2]

/-- The static config loop succeeds exactly when every line has the
separator, regardless of position and accumulator. -/
theorem readCfgLines_isOk_iff (lines : List String) (i : Nat) (acc : Cfg) :
    exceptOk (readCfgLines lines i acc) = true ↔ ∀ l ∈ lines, lineHasEq l = true := by
  induction lines generalizing i acc with
  | nil => simp [readCfgLines, exceptOk]
  | cons line rest ih =>
      by_cases h : lineHasEq line = true
      · obtain ⟨a, b, _, hsplit⟩ := splitN2_of_hasEq line h
        simp [readCfgLines, hsplit, ih, h]
      · have h0 : lineHasEq line = false := by revert h; cases lineHasEq line <;> simp
        simp [readCfgLines, splitN2_of_noEq line h0, exceptOk, h0]

/-- The static config loop fails on the first separator-free line with an
error naming that line's 1-based number and content. -/
theorem readCfgLines_firstBad (pre : List String) (line : String) (post : List String)
    (i : Nat) (acc : Cfg) (hpre : ∀ l ∈ pre, lineHasEq l = true)
    (hline : lineHasEq line = false) :
    readCfgLines (pre ++ line :: post) i acc =
      .error ("config line " ++ toString (i + pre.length + 1) ++ " invalid: " ++ line) := by
  induction pre generalizing i acc with
  | nil =>
      simp only [List.nil_append, List.length_nil, Nat.add_zero]
      simp [readCfgLines, splitN2_of_noEq line hline]
  | cons p rest ih =>
      have hp : lineHasEq p = true := hpre p (by simp)
      obtain ⟨a, b, _, hsplit⟩ := splitN2_of_hasEq p hp
      simp only [List.cons_append, readCfgLines, hsplit]
      have harith : i + (p :: rest).length + 1 = i + 1 + rest.length + 1 := by
        simp only [List.length_cons]
        omega
      rw [harith]
      exact ih (i + 1) _ (fun l hl => hpre l (by simp [hl]))

/-- The getReceiverFn type switch is first-match over its case order. -/
theorem getReceiverFn_eq (impl : Impl) : getReceiverFn impl = firstMatch impl ceShapeOrder := rfl

/-- The invokeCloudEventHandlerFn type switch is first-match over its case
order, with the unsupported-signature error as default. -/
theorem invokeCE_eq (impl : Impl) :
    invokeCloudEventHandlerFn impl = firstMatchExcept impl kafkaShapeOrder := rfl

/-- firstMatchExcept is firstMatch with the default error filled in. -/
theorem firstMatchExcept_eq (impl : Impl) (l : List Shape) :
    firstMatchExcept impl l =
      (match firstMatch impl l with
       | some s => Except.ok s
       | none => Except.error "unsupported CloudEvent handler signature") := by
  induction l with
  | nil => rfl
  | cons s rest ih =>
      by_cases h : impl s
      · simp [firstMatchExcept, firstMatch, h]
      · simp [firstMatchExcept, firstMatch, h, ih]

/-- A shape bound by first-match is one the handler satisfies. -/
theorem firstMatch_sat (impl : Impl) (l : List Shape) (s : Shape)
    (h : firstMatch impl l = some s) : impl s = true := by
  induction l with
  | nil => simp [firstMatch] at h
  | cons a rest ih =>
      by_cases ha : impl a
      · simp [firstMatch, ha] at h
        subst h
        exact ha
      · simp [firstMatch, ha] at h
        exact ih h

/-- The http allEnvs variant does key each variable by its name: its loop
splits every environment entry at the first separator. -/
theorem httpAllEnvs_single :
    httpAllEnvs [("TEST_ENV", "example_value")] = [("TEST_ENV", "example_value")] := rfl

/-! Claim theorems. -/

/-- C1: the claim says the Config passed to the Starter hook holds every
environment variable under its variable name with its environment value.
Evaluating allEnvs of cloudevents/service.go, which Start there passes
to the hook, at a process environment holding the single variable
TEST_ENV with value example_value: the built map keys the whole
name=value string with an empty value, so the variable name TEST_ENV is
absent, against the claim and against the package's own
TestStart_CfgEnvs expectation; the newCfg path cited by the same claim
does satisfy it, shown here at a static file overridden by the
environment. -/
theorem C1_allEnvs_failing_input :
    allEnvs [("TEST_ENV", "example_value")] = [("TEST_ENV=example_value", "")] ∧
    cfgGet (allEnvs [("TEST_ENV", "example_value")]) "TEST_ENV" = none ∧
    newCfg (some ["KEY=\"file_value\""]) [("KEY", "env_value"), ("TEST_ENV", "example_value")]
      = Except.ok [("KEY", "env_value"), ("TEST_ENV", "example_value")] := ⟨rfl, rfl, rfl⟩

/-- C2 counterexample: the claim says the most-specific shape, context
and event parameters with event-pointer and error return, is tested
first.  The getReceiverFn case order starts with the no-parameter
no-return shape instead, a handler satisfying both extremes binds to
that least-specific shape, and the kafka switch tests only ten of the
twelve shapes, leaving both event-pointer-only returns untested. -/
theorem C2_counterexample :
    ceShapeOrder.headD Shape.handlerCtxEvtEvtErr = Shape.handler ∧
    getReceiverFn (fun s => s == Shape.handler || s == Shape.handlerCtxEvtEvtErr)
      = some Shape.handler ∧
    kafkaShapeOrder.length = 10 ∧
    kafkaShapeOrder.contains Shape.handlerEvtEvt = false ∧
    kafkaShapeOrder.contains Shape.handlerCtxEvtEvt = false := by decide

/-- C2 as amended: both resolvers bind the invocation closure to the
first matching shape of a fixed testing order; getReceiverFn tests all
twelve shapes with the least-specific first and the most-specific last,
while the kafka invokeCloudEventHandlerFn tests most-specific first but
covers only ten shapes, omitting the two event-pointer-only returns,
which fall to the unsupported-signature error. -/
theorem C2_resolution_order (impl : Impl) :
    getReceiverFn impl = firstMatch impl ceShapeOrder ∧
    invokeCloudEventHandlerFn impl = firstMatchExcept impl kafkaShapeOrder ∧
    (∀ l, firstMatchExcept impl l =
      (match firstMatch impl l with
       | some s => Except.ok s
       | none => Except.error "unsupported CloudEvent handler signature")) ∧
    ceShapeOrder.length = 12 ∧ (∀ s : Shape, s ∈ ceShapeOrder) ∧
    ceShapeOrder.headD Shape.handlerCtxEvtEvtErr = Shape.handler ∧
    ceShapeOrder.getLastD Shape.handler = Shape.handlerCtxEvtEvtErr ∧
    kafkaShapeOrder.headD Shape.handler = Shape.handlerCtxEvtEvtErr ∧
    kafkaShapeOrder.getLastD Shape.handlerCtxEvtEvtErr = Shape.handler ∧
    kafkaShapeOrder.length = 10 ∧
    kafkaShapeOrder.contains Shape.handlerEvtEvt = false ∧
    kafkaShapeOrder.contains Shape.handlerCtxEvtEvt = false :=
  ⟨getReceiverFn_eq impl, invokeCE_eq impl, firstMatchExcept_eq impl,
   by decide, fun s => by cases s <;> simp [ceShapeOrder],
   by decide, by decide, by decide, by decide, by decide, by decide, by decide⟩

/-- C3 counterexample: the claim says a handler matching no supported
dispatch shape makes construction fail fatally.  In the http transport,
New stores the handler uninspected and registers the routes with no
failure path, and a request to the root route of a service around a
value that does not implement the Handler interface is answered by the
fallback, so work is accepted without construction ever failing. -/
theorem C3_counterexample :
    httpNew false = { implementsHandler := false,
                      routes := ["/health/readiness", "/health/liveness", "/"] } ∧
    httpServiceHandle false
      = HTTPDispatch.fallback "function does not implement Handle. Skipping" := ⟨rfl, rfl⟩

/-- C3 as amended: in the CloudEvents transport a non-DefaultHandler
value matching none of the twelve shapes makes construction fail fatally
through the getReceiverFn panic, and any shape the construction does
bind is one the handler satisfies; in the http transport construction
never fails, and a value not implementing the Handler interface is
answered per request by a fallback carrying an explanatory message
rather than being silently dropped. -/
theorem C3_construction (impl : Impl) :
    ((∀ s, impl s = false) → newCloudeventHandler false impl = none) ∧
    (∀ r, newCloudeventHandler false impl = some r →
        ∃ s, r = ResolvedHandler.shape s ∧ impl s = true) ∧
    (httpNew false).routes = ["/health/readiness", "/health/liveness", "/"] ∧
    httpServiceHandle false
      = HTTPDispatch.fallback "function does not implement Handle. Skipping" := by
  refine ⟨fun h => ?_, fun r hr => ?_, rfl, rfl⟩
  · simp [newCloudeventHandler, getReceiverFn, h]
  · have hne : ¬ (false = true) := by simp
    simp only [newCloudeventHandler, if_neg hne] at hr
    cases hg : getReceiverFn impl with
    | none => rw [hg] at hr; simp at hr
    | some s =>
        rw [hg] at hr
        simp only [Option.map_some', Option.some.injEq] at hr
        exact ⟨s, hr.symm,
          firstMatch_sat impl ceShapeOrder s (by rw [← getReceiverFn_eq]; exact hg)⟩

/-- C4: whatever triggered the shutdown, the collapsed result is the
first non-nil error of the list triggering cause, Stopper hook error
when the hook is implemented, transport close error, in that order, and
the logged errors are exactly the remaining non-nil ones; when all are
nil the result is nil and nothing is logged, both read off the head and
tail of the non-nil errors in claim order. -/
theorem C4_first_wins (x : ShutdownIn) :
    (shutdownRun x).2 =
      (([x.sourceErr, if x.implStop then x.stopErr else none, x.closeErr].filterMap id).head?,
       ([x.sourceErr, if x.implStop then x.stopErr else none, x.closeErr].filterMap id).tail) := by
  obtain ⟨a, b, c, d⟩ := x
  cases a <;> cases b <;> cases c <;> cases d <;> rfl

/-- C5: for a handler without Stopper, the shutdown trace holds only the
transport close and, when no other error exists, shutdown completes
without error despite the absent hook; whenever the Stop hook is invoked
at all, the handler implements Stopper and the invocation sits after the
transport close has begun. -/
theorem C5_stop_ordering (x : ShutdownIn) :
    (x.implStop = false → (shutdownRun x).1 = [StopEv.closeBegun]) ∧
    (x.implStop = false → x.sourceErr = none → x.closeErr = none →
        (shutdownRun x).2 = (none, [])) ∧
    ((shutdownRun x).1.contains StopEv.stopHookInvoked = true →
        x.implStop = true ∧
        (shutdownRun x).1 = [StopEv.closeBegun, StopEv.stopHookInvoked]) := by
  obtain ⟨a, b, c, d⟩ := x
  cases b
  · refine ⟨fun _ => rfl, fun _ ha hd => ?_, fun h => ?_⟩
    · subst ha
      subst hd
      rfl
    · simp [shutdownRun, collapseErrors] at h
      exact absurd h (by decide)
  · exact ⟨fun h => by simp at h, fun h => by simp at h, fun _ => ⟨rfl, rfl⟩⟩

/-- C6 counterexample: the claim says the Starter hook always runs in its
own task and Start proceeds to serve without waiting for it.  In Start
of cloudevents/service.go the hook is invoked synchronously: serving
appears only after the hook's return in the single task's trace, and a
hook returning an error makes Start return it with serving never begun. -/
theorem C6_counterexample :
    (ceServiceStart true none none).1
      = [StartEv.hookInvoked, StartEv.hookReturned, StartEv.serving,
         StartEv.signalsInstalled] ∧
    (ceServiceStart true (some "boom") none).2 = some "boom" ∧
    (ceServiceStart true (some "boom") none).1.contains StartEv.serving = false := by decide

/-- C6 as amended: in the http variant the main task spawns the hook and
proceeds to bind and serve without the hook's return ever appearing in
its trace, the spawned task captures exactly a non-nil hook error onto
the stop signal, and such an error wins the race and is returned from
Start through shutdown; the cloudevents instance variant binds the
transport even before spawning the hook; the cloudevents service.go
variant instead invokes the hook synchronously and a failing hook
prevents serving entirely. -/
theorem C6_start_hook (implStart implStop : Bool) (e : String) :
    (httpStartTrace implStart).contains StartEv.transportBound = true ∧
    (httpStartTrace implStart).contains StartEv.hookReturned = false ∧
    (implStart = true →
        (httpStartTrace implStart).headD StartEv.serving = StartEv.hookSpawned) ∧
    startHookSends (some e) = [e] ∧
    startHookSends none = [] ∧
    httpStartReturn (some e) implStop none none = some e ∧
    (ceInstStart true (Except.ok [])).1
      = [StartEv.transportBound, StartEv.hookSpawned, StartEv.signalsInstalled,
         StartEv.serving] ∧
    (ceServiceStart true (some e) none).2 = some e ∧
    (ceServiceStart true (some e) none).1.contains StartEv.serving = false := by
  refine ⟨?_, ?_, ?_, rfl, rfl, ?_, rfl, rfl, rfl⟩
  · cases implStart <;> rfl
  · cases implStart <;> rfl
  · intro h
    subst h
    rfl
  · cases implStop <;> rfl

/-- C7 counterexample: the claim says a hook returning false with nil
error yields a 503-class response with a body reading not yet available.
The liveness probe's false branch writes the body function not ready,
which does not contain that phrase. -/
theorem C7_counterexample :
    serviceAlive (HookRes.res false none) = ⟨503, "function not ready"⟩ ∧
    hasSub (serviceAlive (HookRes.res false none)).body "not yet available" = false :=
  ⟨rfl, rfl⟩

/-- C7 as amended: a probe with the capability absent reports healthy
with status 200 and body READY or ALIVE; a hook returning false with nil
error yields 503 with body function not yet available for readiness and
function not ready for liveness; a hook error yields 500 with the fixed
message and the error text appended, distinguishable from the false case
by status while both are unavailable; a true report is healthy. -/
theorem C7_probe_responses (e : String) (b : Bool) :
    serviceReady HookRes.noImpl = ⟨200, "READY"⟩ ∧
    serviceAlive HookRes.noImpl = ⟨200, "ALIVE"⟩ ∧
    serviceReady (HookRes.res false none) = ⟨503, "function not yet available"⟩ ∧
    serviceAlive (HookRes.res false none) = ⟨503, "function not ready"⟩ ∧
    ceServiceReady (HookRes.res false none) = ⟨503, "function not yet available\n"⟩ ∧
    ceServiceAlive (HookRes.res false none) = ⟨503, "function not ready"⟩ ∧
    serviceReady (HookRes.res b (some e)) = ⟨500, "error checking readiness. " ++ e⟩ ∧
    serviceAlive (HookRes.res b (some e)) = ⟨500, "error checking liveness. " ++ e⟩ ∧
    ceServiceReady (HookRes.res b (some e)) = ⟨500, "error checking readiness. " ++ e⟩ ∧
    ceServiceAlive (HookRes.res b (some e)) = ⟨500, "error checking liveness. " ++ e⟩ ∧
    serviceReady (HookRes.res true none) = ⟨200, "READY"⟩ ∧
    serviceAlive (HookRes.res true none) = ⟨200, "ALIVE"⟩ := by
  cases b <;> exact ⟨rfl, rfl, rfl, rfl, rfl, rfl, rfl, rfl, rfl, rfl, rfl, rfl⟩

/-- C8: a probe whose hook panics is answered through recoverMiddleware
with the unavailable status 500 rather than crashing, while non-panicking
runs pass through unchanged to the plain probe responses. -/
theorem C8_probe_panic (m : String) (b : Bool) (e : Option String) :
    probeReady (HookRun.panics m) = ⟨500, ""⟩ ∧
    probeAlive (HookRun.panics m) = ⟨500, ""⟩ ∧
    probeReady (HookRun.returns b e) = serviceReady (HookRes.res b e) ∧
    probeAlive (HookRun.returns b e) = serviceAlive (HookRes.res b e) ∧
    probeReady HookRun.absent = ⟨200, "READY"⟩ ∧
    probeAlive HookRun.absent = ⟨200, "ALIVE"⟩ :=
  ⟨rfl, rfl, rfl, rfl, rfl, rfl⟩

/-- C9 counterexample: the claim says blank lines are tolerated.  A file
whose second line is blank fails the whole read with the error naming
line 2, because a blank line splits into one part, not two. -/
theorem C9_counterexample :
    readCfg (some ["A=1", "", "B=2"]) = .error "config line 2 invalid: " := rfl

/-- C9 as amended: a missing file yields the empty map without error; a
present file is accepted exactly when every line, blank lines included,
contains the separator; the first line without a separator fails the
whole build with an error naming its 1-based number and content; and a
well-formed line stores its space-trimmed key and its space-then-quote
trimmed value. -/
theorem C9_static_config :
    readCfg none = Except.ok [] ∧
    (∀ lines : List String,
        exceptOk (readCfg (some lines)) = true ↔ ∀ l ∈ lines, lineHasEq l = true) ∧
    (∀ pre line post, (∀ l ∈ pre, lineHasEq l = true) → lineHasEq line = false →
        readCfg (some (pre ++ line :: post)) =
          .error ("config line " ++ toString (pre.length + 1) ++ " invalid: " ++ line)) ∧
    (∀ kc vc : List Char, kc.contains '=' = false →
        readCfg (some [String.mk (kc ++ '=' :: vc)]) =
          .ok (cfgSet [] (trimSpace (String.mk kc))
                (trimQuotes (trimSpace (String.mk vc))))) := by
  refine ⟨rfl, fun lines => readCfgLines_isOk_iff lines 0 [],
    fun pre line post h1 h2 => ?_, fun kc vc h => ?_⟩
  · have hb := readCfgLines_firstBad pre line post 0 [] h1 h2
    simpa [readCfg, Nat.zero_add] using hb
  · simp [readCfg, readCfgLines, splitN2, splitEqAux_append kc vc h]

/-- C10 counterexample: the claim says a non-empty LISTEN_ADDRESS is used
verbatim.  With only LISTEN_ADDRESS set, the http variant ignores it and
listens on the default, while the cloudevents variant honors it. -/
theorem C10_counterexample :
    httpListenAddress [("LISTEN_ADDRESS", "0.0.0.0:9999")] = "127.0.0.1:8080" ∧
    ceListenAddress [("LISTEN_ADDRESS", "0.0.0.0:9999")] = "0.0.0.0:9999" := ⟨rfl, rfl⟩

/-- C10 as amended: the cloudevents listenAddress follows the stated
precedence, a non-empty LISTEN_ADDRESS verbatim, else the legacy pair
with the missing half defaulted to 127.0.0.1 or 8080, else the loopback
default; the http variant never consults LISTEN_ADDRESS, depending only
on ADDRESS and PORT with the same per-half defaults. -/
theorem C10_listen_address (env env2 : Env) :
    (osGetenv env "LISTEN_ADDRESS" ≠ "" →
        ceListenAddress env = osGetenv env "LISTEN_ADDRESS") ∧
    (osGetenv env "LISTEN_ADDRESS" = "" → osGetenv env "ADDRESS" = "" →
        osGetenv env "PORT" = "" → ceListenAddress env = "127.0.0.1:8080") ∧
    (osGetenv env "LISTEN_ADDRESS" = "" →
        (osGetenv env "ADDRESS" ≠ "" ∨ osGetenv env "PORT" ≠ "") →
        ceListenAddress env =
          (if osGetenv env "ADDRESS" ≠ "" then osGetenv env "ADDRESS" else "127.0.0.1")
            ++ ":"
            ++ (if osGetenv env "PORT" ≠ "" then osGetenv env "PORT" else "8080")) ∧
    (osGetenv env "ADDRESS" = osGetenv env2 "ADDRESS" →
        osGetenv env "PORT" = osGetenv env2 "PORT" →
        httpListenAddress env = httpListenAddress env2) := by
  refine ⟨fun h => ?_, fun h1 h2 h3 => ?_, fun h1 h2 => ?_, fun h1 h2 => ?_⟩
  · simp only [ceListenAddress, if_pos h]
  · simp only [ceListenAddress]
    rw [if_neg (by simp [h1]), if_neg (by simp [h2, h3])]
    rfl
  · simp only [ceListenAddress]
    rw [if_neg (by simp [h1]), if_pos h2]
  · simp only [httpListenAddress, h1, h2]

end FuncGo
